import Mathlib

/-!
Verification of the natural-language discovery engine of this repository:
the `AIDataDiscoveryService`, `RAGSearchService`, `GeminiAIService` and
`MockAIService` modules.  The TypeScript sources are embedded shallowly:
strings are Lean `String`s, JavaScript numbers are `Nat` (discovery scores,
which are integral) or `ℚ` (the plain-search scores, which carry halves),
rejected promises are `Except` values, and the process-wide fallback flag is
explicit state threaded through a step function.
-/

/-! ### String primitives

The sources use `String.prototype.toLowerCase`, `String.prototype.includes`,
`String.prototype.trim`, `split(/\s+/)`, `split(' ')` and regex tests built
from literal alternations.  All queries and catalog texts in this repository
are ASCII, so lower-casing is modelled on ASCII letters.
-/

/-- ASCII lower-casing of one character (models `toLowerCase` on the ASCII
strings used by the repository). -/
def lowerChar (c : Char) : Char :=
  if 'A' ≤ c ∧ c ≤ 'Z' then Char.ofNat (c.toNat + 32) else c

/-- `s.toLowerCase()`. -/
def strToLower (s : String) : String := String.mk (s.data.map lowerChar)

/-- Boolean test that `needle` occurs contiguously inside `hay`
(character-list level). -/
def charsInfixOf (needle : List Char) : List Char → Bool
  | [] => needle.isPrefixOf []
  | c :: rest => needle.isPrefixOf (c :: rest) || charsInfixOf needle rest

/-- `hay.includes(needle)` (JavaScript substring containment). -/
def strIncludes (hay needle : String) : Bool := charsInfixOf needle.data hay.data

/-- A character counted by the JavaScript `\w` class. -/
def isWordChar (c : Char) : Bool := c.isAlphanum || c == '_'

/-- `query.replace(/[^\w\s]/g, ' ')`: punctuation is replaced by a space. -/
def stripPunctToSpace (s : String) : String :=
  String.mk (s.data.map (fun c => if isWordChar c || c.isWhitespace then c else ' '))

/-- `term.replace(/[^\w]/g, '')`: non-word characters are deleted. -/
def stripNonWord (s : String) : String := String.mk (s.data.filter isWordChar)

/-- `s.trim()` (ASCII whitespace at both ends). -/
def strTrim (s : String) : String :=
  String.mk ((s.data.dropWhile Char.isWhitespace).reverse.dropWhile Char.isWhitespace).reverse

/-- Worker for `split(' ')`: split at every single space character. -/
def splitOnSpaceGo : List Char → List Char → List (List Char)
  | [], cur => [cur.reverse]
  | c :: cs, cur =>
    if c == ' ' then cur.reverse :: splitOnSpaceGo cs []
    else splitOnSpaceGo cs (c :: cur)

/-- `s.split(' ')` (JavaScript single-character split, keeping empty pieces). -/
def splitOnSpace (s : String) : List String :=
  (splitOnSpaceGo s.data []).map String.mk

/-- Worker for `split(/\s+/)`.  `inSep` records that the previous character
belonged to the same whitespace run, `cur` the (reversed) pending token. -/
def splitWsGo : List Char → Bool → List Char → List (List Char)
  | [], _, cur => [cur.reverse]
  | c :: cs, inSep, cur =>
    if c.isWhitespace then
      if inSep then splitWsGo cs true cur
      else cur.reverse :: splitWsGo cs true []
    else splitWsGo cs false (c :: cur)

/-- `s.split(/\s+/)`: split at maximal whitespace runs, keeping the empty
pieces JavaScript produces at the ends. -/
def splitWs (s : String) : List String :=
  (splitWsGo s.data false []).map String.mk

/-! ### Reducible rational arithmetic

The library additions and divisions on `ℚ` are `@[irreducible]`, so concrete
scores built with them cannot be evaluated by `decide`.  The embedding
computes with the `mkRat`-based equivalents below; `ratAdd_eq` and
`ratDivNat_eq` identify them with `+` and `/`. -/

/-- `a + b` on `ℚ`, computed through `mkRat`. -/
def ratAdd (a b : ℚ) : ℚ := mkRat (a.num * b.den + b.num * a.den) (a.den * b.den)

/-- `a / n` on `ℚ` for a natural divisor, computed through `mkRat`. -/
def ratDivNat (a : ℚ) (n : ℕ) : ℚ := mkRat a.num (a.den * n)

/-! ### A stable descending sort

`Array.prototype.sort` with comparator `(a, b) => key(b) - key(a)` is a
stable descending sort (stability is mandated by ECMA-262).  Any stable
algorithm yields the same list, so it is modelled by insertion sort that
inserts each element before the first element whose key is not larger. -/

def insertDescBy {α β : Type} [LinearOrder β] (key : α → β) (x : α) :
    List α → List α
  | [] => [x]
  | y :: ys => if key y ≤ key x then x :: y :: ys else y :: insertDescBy key x ys

def sortDescBy {α β : Type} [LinearOrder β] (key : α → β) (l : List α) : List α :=
  l.foldr (insertDescBy key) []

/-! ### Shared data model

Catalog records as consumed by the services (fields are exactly those the
scoring code reads).  `CSVApp` is the flat application record loaded from the
CSV ingestion collaborator. -/

structure CSVApp where
  app_id : String
  app_name : String
  category : String
  description : String
deriving DecidableEq, Repr

/-- The intent record shared by `analyzeIntent` of both AI providers. -/
inductive SearchType
  | specific
  | category
  | feature
  | general
deriving DecidableEq, Repr

structure IntentResult where
  intent : String
  category : Option String
  keywords : List String
  searchType : SearchType
deriving DecidableEq, Repr

/-- A JavaScript thrown value: either an `Error` carrying a message, or some
non-`Error` value (whose message is unavailable to `error.message`). -/
inductive JSError
  | error (message : String)
  | nonError
deriving DecidableEq, Repr

/-- Insertion-ordered deduplication, as performed by `[...new Set(xs)]`. -/
def dedup (l : List String) : List String :=
  l.foldl (fun acc c => if acc.contains c then acc else acc ++ [c]) []

namespace AIDataDiscovery

/-! ### `AIDataDiscoveryService` (aiDataDiscovery module)

The catalog entity shapes below carry the fields the service dereferences. -/

structure Appl where
  id : String
  name : String
  description : String
  tags : List String
deriving DecidableEq, Repr

structure DataSrc where
  id : String
  name : String
  description : String
  tags : List String
  department : String
deriving DecidableEq, Repr

structure Column where
  name : String
  description : Option String
  colType : String
  sensitive : Bool
deriving DecidableEq, Repr

structure Table where
  id : String
  name : String
  schema : String
  description : String
  tags : List String
  sensitive : Bool
  columns : List Column
deriving DecidableEq, Repr

inductive ResultType
  | application
  | dataSource
  | table
  | column
deriving DecidableEq, Repr

inductive MatchType
  | exact
  | semantic
  | related
deriving DecidableEq, Repr

structure AISearchResult where
  type' : ResultType
  id : String
  name : String
  relevanceScore : Nat
  reason : String
  path : String
  sensitive : Bool
  matchType : MatchType
deriving DecidableEq, Repr

structure AISearchResponse where
  query : String
  intent : String
  suggestions : List AISearchResult
  alternativeQueries : List String
  warnings : List String
deriving DecidableEq, Repr

/-- A case-insensitive regex alternation of literals, `/(p1|p2|...)/i.test s`. -/
def testAnyCI (pats : List String) (s : String) : Bool :=
  pats.any (fun p => strIncludes (strToLower s) p)

/-- The fixed intent pattern table of `detectIntent`. -/
def intentPatterns : List (List String × String) :=
  [ (["credit card", "payment", "billing", "card number"], "Find payment/credit card data"),
    (["customer", "user", "client", "person"], "Find customer information"),
    (["order", "purchase", "transaction", "sale"], "Find transaction/order data"),
    (["employee", "staff", "hr", "human resource"], "Find employee/HR data"),
    (["product", "inventory", "catalog", "item"], "Find product/inventory data"),
    (["financial", "finance", "revenue", "profit"], "Find financial data"),
    (["marketing", "campaign", "advertisement"], "Find marketing data"),
    (["sensitive", "pii", "personal", "private"], "Find sensitive/personal data") ]

def detectIntent (query : String) : String :=
  match intentPatterns.find? (fun pi => testAnyCI pi.1 query) with
  | some pi => pi.2
  | none => "General data search"

/-- Stop-word list of `extractKeyTerms`. -/
def stopWordsDiscovery : List String :=
  ["the", "a", "an", "and", "or", "but", "in", "on", "at", "to", "for", "of",
   "with", "by", "from", "up", "about", "into", "through", "during", "before",
   "after", "above", "below", "between", "among", "i", "want", "need", "find",
   "get", "show", "me", "data", "information"]

/-- `extractKeyTerms`: lower-case, replace punctuation by spaces, split on
whitespace, drop stop words and tokens of length at most 2. -/
def extractKeyTerms (query : String) : List String :=
  (splitWs (stripPunctToSpace (strToLower query))).filter
    (fun term => term.length > 2 && !(stopWordsDiscovery.contains term))

/-- The fixed sensitive-data-type pattern table of `identifyDataTypes`. -/
def dataTypePatterns : List (List String × String) :=
  [ (["credit card", "card number", "payment card", "cc"], "credit_card"),
    (["ssn", "social security", "social security number"], "ssn"),
    (["email", "e-mail", "email address"], "email"),
    (["phone", "telephone", "mobile", "cell"], "phone"),
    (["address", "street", "city", "zip", "postal"], "address"),
    (["name", "first name", "last name", "full name"], "name"),
    (["password", "pwd", "passcode"], "password"),
    (["salary", "wage", "income", "compensation"], "salary"),
    (["dob", "date of birth", "birthday"], "date_of_birth") ]

def identifyDataTypes (query : String) : List String :=
  dataTypePatterns.filterMap
    (fun pt => if testAnyCI pt.1 query then some pt.2 else none)

/-- Accumulator of one entity's scoring pass: running score, concatenated
reason fragments, current match type. -/
structure ScoreAcc where
  score : Nat
  reason : String
  matchType : MatchType
deriving DecidableEq, Repr

/-- The per-term loop shared by the four `search*` methods: for each key term
contained in `text`, add `pts`, append a reason fragment, escalate the match
type to `semantic`. -/
def termScan (text : String) (pts : Nat) (fragSuffix : String)
    (keyTerms : List String) (acc : ScoreAcc) : ScoreAcc :=
  keyTerms.foldl
    (fun a term =>
      if strIncludes text term then
        { score := a.score + pts,
          reason := a.reason ++ "Matches \"" ++ term ++ "\"" ++ fragSuffix,
          matchType := MatchType.semantic }
      else a)
    acc

/-- The push step shared by the four searchers:
`if (score > 0) { results.push({...}) }` - an entity contributes a result
row only when its accumulated score is positive. -/
def buildResult (a2 : ScoreAcc) (mk : ScoreAcc → AISearchResult) : Option AISearchResult :=
  if a2.score > 0 then some (mk a2) else none

def searchApplications (applications : List Appl) (keyTerms dataTypes : List String) :
    List AISearchResult :=
  applications.filterMap (fun app =>
    let appText := strToLower (app.name ++ " " ++ app.description ++ " "
      ++ String.intercalate " " app.tags)
    let a1 := termScan appText 30 " in application details. " keyTerms
      ⟨0, "", MatchType.related⟩
    let a2 :=
      if dataTypes.contains "credit_card" then
        let b1 :=
          if strIncludes appText "payment" || strIncludes appText "billing"
              || strIncludes appText "financial" then
            { a1 with
              score := a1.score + 50
              reason := a1.reason ++ "Likely contains payment/financial data. "
              matchType := MatchType.semantic }
          else a1
        if strIncludes (strToLower app.name) "portal"
            || strIncludes (strToLower app.name) "crm" then
          { b1 with
            score := b1.score + 30
            reason := b1.reason ++ "Customer-facing application may store payment info. " }
        else b1
      else a1
    buildResult a2 (fun a =>
      { type' := ResultType.application, id := app.id, name := app.name,
        relevanceScore := a.score, reason := strTrim a.reason,
        path := "Application: " ++ app.name,
        sensitive := app.tags.contains "customer-facing"
          || strIncludes (strToLower app.name) "financial",
        matchType := a.matchType }))

def searchDataSources (dataSources : List DataSrc) (keyTerms dataTypes : List String) :
    List AISearchResult :=
  dataSources.filterMap (fun ds =>
    let dsText := strToLower (ds.name ++ " " ++ ds.description ++ " "
      ++ String.intercalate " " ds.tags ++ " " ++ ds.department)
    let a1 := termScan dsText 25 " in data source. " keyTerms ⟨0, "", MatchType.related⟩
    let a2 :=
      if dataTypes.contains "credit_card" then
        let b1 :=
          if strIncludes (strToLower ds.name) "customer"
              || strIncludes (strToLower ds.description) "customer" then
            { a1 with
              score := a1.score + 40
              reason := a1.reason ++ "Customer database likely contains payment information. " }
          else a1
        if strIncludes (strToLower ds.name) "sales"
            || strIncludes (strToLower ds.name) "order" then
          { b1 with
            score := b1.score + 35
            reason := b1.reason ++ "Sales/order data may include payment details. " }
        else b1
      else a1
    buildResult a2 (fun a =>
      { type' := ResultType.dataSource, id := ds.id, name := ds.name,
        relevanceScore := a.score, reason := strTrim a.reason,
        path := "Data Source: " ++ ds.name,
        sensitive := ds.tags.contains "pii" || ds.tags.contains "customer",
        matchType := a.matchType }))

def searchTables (tables : List Table) (keyTerms dataTypes : List String) :
    List AISearchResult :=
  tables.filterMap (fun table =>
    let tableText := strToLower (table.name ++ " " ++ table.description ++ " "
      ++ String.intercalate " " table.tags)
    let a1 := termScan tableText 20 " in table. " keyTerms ⟨0, "", MatchType.related⟩
    let a2 :=
      if dataTypes.contains "credit_card" then
        let b1 :=
          if table.name == "customers" || table.name == "orders" then
            { a1 with
              score := a1.score + 45
              reason := a1.reason ++ "Table commonly contains payment information. "
              matchType := MatchType.semantic }
          else a1
        let hasPaymentColumns :=
          table.columns.any (fun col => testAnyCI ["payment", "card", "billing", "cc"] col.name)
        if hasPaymentColumns then
          { b1 with
            score := b1.score + 60
            reason := b1.reason ++ "Contains payment-related columns. "
            matchType := MatchType.exact }
        else b1
      else a1
    buildResult a2 (fun a =>
      { type' := ResultType.table, id := table.id, name := table.name,
        relevanceScore := a.score, reason := strTrim a.reason,
        path := "Table: " ++ table.schema ++ "." ++ table.name,
        sensitive := table.sensitive,
        matchType := a.matchType }))

/-- Scoring of one column of `table` (body of the inner `forEach` of
`searchColumns`). -/
def scoreColumn (keyTerms dataTypes : List String) (table : Table) (column : Column) :
    Option AISearchResult :=
  let columnText := strToLower (column.name ++ " " ++ column.description.getD "" ++ " "
    ++ column.colType)
  let a1 := termScan columnText 15 " in column. " keyTerms ⟨0, "", MatchType.related⟩
  let a2 :=
    if dataTypes.contains "credit_card" then
      if strToLower column.name == "card_number" || strToLower column.name == "credit_card"
          || strToLower column.name == "cc_number" || strToLower column.name == "payment_card" then
        { a1 with
          score := a1.score + 100
          reason := a1.reason ++ "Direct match for credit card number field. "
          matchType := MatchType.exact }
      else if testAnyCI ["card", "payment", "billing"] column.name then
        { a1 with
          score := a1.score + 70
          reason := a1.reason ++ "Payment-related column name. "
          matchType := MatchType.semantic }
      else if strIncludes column.colType "varchar"
          && (strIncludes column.colType "16" || strIncludes column.colType "19")
          && table.name == "customers" then
        { a1 with
          score := a1.score + 40
          reason := a1.reason ++ "VARCHAR field in customer table, possible card number storage. "
          matchType := MatchType.semantic }
      else a1
    else a1
  buildResult a2 (fun a =>
    { type' := ResultType.column, id := table.id ++ "_" ++ column.name,
      name := column.name, relevanceScore := a.score, reason := strTrim a.reason,
      path := "Column: " ++ table.schema ++ "." ++ table.name ++ "." ++ column.name,
      sensitive := column.sensitive || table.sensitive,
      matchType := a.matchType })

def searchColumns (tables : List Table) (keyTerms dataTypes : List String) :
    List AISearchResult :=
  tables.flatMap (fun table => table.columns.filterMap (scoreColumn keyTerms dataTypes table))

def generateAlternativeQueries (originalQuery : String) (keyTerms : List String) :
    List String :=
  let alternatives : List String :=
    if strIncludes (strToLower originalQuery) "credit card" then
      ["payment information", "billing data", "customer payment methods",
       "card number fields", "financial transaction data"]
    else []
  let alternatives :=
    if keyTerms.contains "customer" then
      alternatives ++ ["user profile data", "client information", "customer records"]
    else alternatives
  alternatives.take 5

def pciWarning : String :=
  "🔒 Credit card data found. This is highly sensitive PII subject to PCI DSS compliance requirements."

def generateWarnings (suggestions : List AISearchResult) : List String :=
  let sensitiveResults := suggestions.filter (fun s => s.sensitive)
  let w1 : List String :=
    if sensitiveResults.length > 0 then
      ["⚠️ " ++ toString sensitiveResults.length
        ++ " results contain sensitive data. Ensure you have proper authorization before accessing."]
    else []
  let exactMatches := suggestions.filter (fun s => s.matchType == MatchType.exact)
  let w2 : List String :=
    if exactMatches.length == 0 then
      ["💡 No exact matches found. Results are based on semantic analysis and may require verification."]
    else []
  let creditCardColumns := suggestions.filter
    (fun s => s.type' == ResultType.column && testAnyCI ["card", "payment"] s.name)
  let w3 : List String := if creditCardColumns.length > 0 then [pciWarning] else []
  w1 ++ w2 ++ w3

/-- The flat result list accumulated by `searchData` before sorting:
applications, then data sources, then tables, then columns, each in catalog
order. -/
def searchDataResults (query : String) (dataSources : List DataSrc)
    (tables : List Table) (applications : List Appl) : List AISearchResult :=
  let normalizedQuery := strToLower query
  let keyTerms := extractKeyTerms normalizedQuery
  let dataTypes := identifyDataTypes normalizedQuery
  searchApplications applications keyTerms dataTypes
    ++ searchDataSources dataSources keyTerms dataTypes
    ++ searchTables tables keyTerms dataTypes
    ++ searchColumns tables keyTerms dataTypes

/-- `AIDataDiscoveryService.searchData` (the promise wrapper is dropped: the
body is synchronous). -/
def searchData (query : String) (dataSources : List DataSrc) (tables : List Table)
    (applications : List Appl) : AISearchResponse :=
  let normalizedQuery := strToLower query
  let results := searchDataResults query dataSources tables applications
  let sorted := sortDescBy (fun r => r.relevanceScore) results
  let suggestions := sorted.take 10
  { query := query,
    intent := detectIntent normalizedQuery,
    suggestions := suggestions,
    alternativeQueries := generateAlternativeQueries query (extractKeyTerms normalizedQuery),
    warnings := generateWarnings suggestions }

end AIDataDiscovery

namespace GeminiAI

/-! ### `GeminiAIService` (geminiService module)

The external generative model is the only effectful collaborator: each public
method performs at most one `model.generateContent` call.  That call is
modelled by an oracle value passed to the method: `Except.ok text` is a
fulfilled call returning `text`, `Except.error e` a rejected one throwing
`e`.  Every method wraps its body in `try`/`catch` and returns normally in
both branches, so each is a total function of its oracle. -/

structure GeminiAIResponse where
  answer : String
  relevantApps : List String
  suggestedQueries : List String
  confidence : ℚ
deriving DecidableEq, Repr

def generateSuggestedQueries (response : String) (relevantApps : List CSVApp) :
    List String :=
  let categories := dedup (relevantApps.map (fun app => app.category))
  let suggestions := categories.foldl
    (fun s category =>
      if category != "" && decide (s.length < 3) then
        s ++ ["Show me more " ++ strToLower category ++ " applications"]
      else s)
    ([] : List String)
  let suggestions :=
    if suggestions.length < 4 then suggestions ++ ["What are the most popular applications?"]
    else suggestions
  let suggestions :=
    if suggestions.length < 4 then suggestions ++ ["Find applications by department"]
    else suggestions
  suggestions.take 4

def parseResponse (text : String) (relevantApps : List CSVApp) : GeminiAIResponse :=
  let confidence : ℚ := 8/10
  let lowerText := strToLower text
  let confidence :=
    if strIncludes lowerText "might" || strIncludes lowerText "possibly"
        || strIncludes lowerText "perhaps" then (6/10 : ℚ) else confidence
  let confidence :=
    if strIncludes lowerText "not sure" || strIncludes lowerText "unclear" then (4/10 : ℚ)
    else confidence
  { answer := strTrim text,
    relevantApps := (relevantApps.take 5).map (fun app => app.app_id),
    suggestedQueries := generateSuggestedQueries text relevantApps,
    confidence := confidence }

/-- `GeminiAIService.generateResponse`: the `try` branch parses the model
text; the `catch` branch classifies the thrown value and still returns a
response, so no failure propagates. -/
def generateResponse (backendResult : Except JSError String)
    (relevantApps : List CSVApp) : GeminiAIResponse :=
  match backendResult with
  | Except.ok text => parseResponse text relevantApps
  | Except.error e =>
    let errorApps := (relevantApps.take 3).map (fun app => app.app_id)
    let standardSuggestions : List String :=
      ["Show me finance applications", "What productivity tools are available?",
       "Find security-related apps"]
    match e with
    | JSError.error msg =>
      if strIncludes msg "CORS" || strIncludes msg "fetch" then
        { answer := "⚠️ Network Error: The Gemini API cannot be accessed directly from the browser due to CORS restrictions. However, I can still help you search through the applications using our local search capabilities.",
          relevantApps := errorApps, suggestedQueries := standardSuggestions,
          confidence := 8/10 }
      else if strIncludes msg "API key" then
        { answer := "🔑 API Key Error: There seems to be an issue with the Gemini API key configuration. Please check the API key and try again.",
          relevantApps := errorApps, suggestedQueries := standardSuggestions,
          confidence := 1/10 }
      else
        { answer := "❌ AI Service Error: " ++ msg ++ ". Using fallback search results instead.",
          relevantApps := errorApps, suggestedQueries := standardSuggestions,
          confidence := 1/10 }
    | JSError.nonError =>
        { answer := "❌ AI Service Error: Unknown error occurred. Using fallback search results instead.",
          relevantApps := errorApps, suggestedQueries := standardSuggestions,
          confidence := 1/10 }

/-- `GeminiAIService.analyzeIntent`.  The oracle carries the model reply
after JSON extraction: `ok (some r)` when the reply contained a parsable
JSON object `r`, `ok none` when it contained none (or parsing threw inside
the `try`), `error` when the call rejected.  Both of the latter return the
fallback record built in the source. -/
def analyzeIntent (backendResult : Except JSError (Option IntentResult))
    (query : String) : IntentResult :=
  match backendResult with
  | Except.ok (some parsed) => parsed
  | _ =>
    { intent := "Find relevant applications", category := none,
      keywords := (splitOnSpace (strToLower query)).filter (fun word => word.length > 2),
      searchType := SearchType.general }

/-- `GeminiAIService.generateWelcomeResponse`: success and failure branches
both return confidence 1.0 and a fixed list of exactly 4 suggested
queries. -/
def generateWelcomeResponse (backendResult : Except JSError String)
    (csvData : List CSVApp) : GeminiAIResponse :=
  let categories := dedup (csvData.map (fun app => app.category))
  let totalApps := csvData.length
  match backendResult with
  | Except.ok text =>
    { answer := strTrim text, relevantApps := [],
      suggestedQueries :=
        ["Show me finance applications", "Find productivity tools for teams",
         "What security apps do we have?", "Browse entertainment applications"],
      confidence := 1 }
  | Except.error _ =>
    { answer := "Hi! I\x27m your AI assistant for discovering applications in our catalog of "
        ++ toString totalApps ++ " apps. I can help you find specific tools, browse categories like "
        ++ String.intercalate ", " (categories.take 3)
        ++ ", or answer questions about our available software. Try asking me something like \"Show me finance applications\" or \"Find productivity tools for teams\"!",
      relevantApps := [],
      suggestedQueries :=
        ["Show me finance applications", "Find productivity tools",
         "What security apps are available?", "Browse by category"],
      confidence := 1 }

end GeminiAI

namespace MockAI

/-! ### `MockAIService` (mockAIService module)

Deterministic local provider.  Its only nondeterminism is the
`categories.sort(() => 0.5 - Math.random())` shuffle inside
`generateSuggestions`, modelled by an oracle reordering function; the fixed
`setTimeout` delays carry no data and are dropped. -/

def generateFinanceResponse (apps : List CSVApp) : String :=
  let financeApps := apps.filter (fun app => strIncludes (strToLower app.category) "finance")
  match financeApps with
  | f :: _ =>
    "Great! I found " ++ toString apps.length ++ " applications that can help with financial needs. "
      ++ f.app_name ++ " looks particularly useful - " ++ f.description
      ++ ". These apps offer various financial features from basic money management to advanced investment tracking."
  | [] =>
    "I found " ++ toString apps.length
      ++ " applications that might help with your financial needs. While not exclusively finance apps, they include useful money-related features that could be valuable for your requirements."

def generateSecurityResponse (apps : List CSVApp) : String :=
  "Security is crucial! I\x27ve identified " ++ toString apps.length
    ++ " applications that address security and privacy concerns. These tools focus on protecting your data and maintaining privacy, which is essential in today\x27s digital environment. "
    ++ ((apps.head?.map (fun a => a.app_name)).getD "undefined")
    ++ " is particularly notable for its security features."

def generateProductivityResponse (apps : List CSVApp) : String :=
  "Perfect for boosting productivity! I found " ++ toString apps.length
    ++ " applications designed to enhance your workflow and team collaboration. These tools can help streamline processes, manage tasks, and improve overall efficiency. "
    ++ ((apps.head?.map (fun a => a.app_name)).getD "undefined")
    ++ " stands out as a great option for productivity enhancement."

def generateEntertainmentResponse (apps : List CSVApp) : String :=
  "Looking for some entertainment? I discovered " ++ toString apps.length
    ++ " applications that offer various forms of digital entertainment and media. From music and games to lifestyle content, these apps provide engaging experiences for your leisure time."

def generateGenericResponse (query : String) (apps : List CSVApp) (topApp : CSVApp) : String :=
  let categories := dedup ((apps.take 3).map (fun app => app.category))
  "Based on your search for \"" ++ query ++ "\", I found " ++ toString apps.length
    ++ " relevant applications. The top match is " ++ topApp.app_name ++ " (" ++ topApp.category
    ++ ") - " ++ topApp.description ++ ". The results span across "
    ++ String.intercalate ", " categories
    ++ " categories, giving you diverse options to explore."

def generateContextualResponse (query : String) (relevantApps : List CSVApp) : String :=
  let lowerQuery := strToLower query
  match relevantApps with
  | [] =>
    "I couldn\x27t find any applications that directly match \"" ++ query
      ++ "\". Try broadening your search or exploring different categories like Finance, Security, or Productivity."
  | topApp :: _ =>
    if strIncludes lowerQuery "finance" || strIncludes lowerQuery "money"
        || strIncludes lowerQuery "payment" then
      generateFinanceResponse relevantApps
    else if strIncludes lowerQuery "security" || strIncludes lowerQuery "encrypt"
        || strIncludes lowerQuery "safe" then
      generateSecurityResponse relevantApps
    else if strIncludes lowerQuery "productivity" || strIncludes lowerQuery "work"
        || strIncludes lowerQuery "team" then
      generateProductivityResponse relevantApps
    else if strIncludes lowerQuery "entertainment" || strIncludes lowerQuery "game"
        || strIncludes lowerQuery "music" then
      generateEntertainmentResponse relevantApps
    else
      generateGenericResponse query relevantApps topApp

def generateSuggestions (shuffle : List String → List String) (query : String)
    (csvData : List CSVApp) : List String :=
  let suggestions : List String :=
    if strIncludes query "finance" then
      ["Show me investment tracking apps", "Find budgeting applications"]
    else if strIncludes query "security" then
      ["What privacy-focused apps do we have?", "Find encryption tools"]
    else if strIncludes query "productivity" then
      ["Show me team collaboration tools", "Find project management apps"]
    else
      ["What are our most popular applications?", "Browse applications by department"]
  let categories := dedup (csvData.map (fun app => app.category))
  let randomCategories := (shuffle categories).take 2
  let suggestions := randomCategories.foldl
    (fun s category =>
      if s.length < 4 then s ++ ["Explore " ++ category ++ " applications"] else s)
    suggestions
  suggestions.take 4

def generateResponse (shuffle : List String → List String) (query : String)
    (csvData : List CSVApp) (relevantApps : List CSVApp) : GeminiAI.GeminiAIResponse :=
  let lowerQuery := strToLower query
  { answer := generateContextualResponse query relevantApps,
    relevantApps := (relevantApps.take 5).map (fun app => app.app_id),
    suggestedQueries := generateSuggestions shuffle lowerQuery csvData,
    confidence := 85/100 }

/-- `MockAIService.analyzeIntent`: the local intent classifier. -/
def analyzeIntent (query : String) : IntentResult :=
  let lowerQuery := strToLower query
  let keywords := (splitOnSpace lowerQuery).filter (fun word => word.length > 2)
  let cs : Option String × SearchType :=
    if strIncludes lowerQuery "finance" || strIncludes lowerQuery "money" then
      (some "Finance", SearchType.category)
    else if strIncludes lowerQuery "security" || strIncludes lowerQuery "privacy" then
      (some "Security", SearchType.category)
    else if strIncludes lowerQuery "productivity" || strIncludes lowerQuery "work" then
      (some "Productivity", SearchType.category)
    else if strIncludes lowerQuery "entertainment" || strIncludes lowerQuery "music"
        || strIncludes lowerQuery "game" then
      (some "Entertainment", SearchType.category)
    else if keywords.any (fun word => (["find", "show", "get", "need"] : List String).contains word) then
      (none, SearchType.feature)
    else (none, SearchType.general)
  let intent :=
    match cs.1 with
    | some c => "Find applications in the " ++ c ++ " category"
    | none =>
      if strIncludes lowerQuery "best" || strIncludes lowerQuery "top" then
        "Find the best applications"
      else if strIncludes lowerQuery "team" || strIncludes lowerQuery "collaboration" then
        "Find team collaboration tools"
      else "Find relevant applications"
  { intent := intent, category := cs.1, keywords := keywords, searchType := cs.2 }

def generateWelcomeResponse (csvData : List CSVApp) : GeminiAI.GeminiAIResponse :=
  let categories := dedup (csvData.map (fun app => app.category))
  let totalApps := csvData.length
  { answer := "👋 Hello! I\x27m your AI assistant for discovering applications in our catalog of "
      ++ toString totalApps ++ " enterprise applications. I can help you find specific tools, explore categories like "
      ++ String.intercalate ", " (categories.take 3)
      ++ ", and answer questions about our software portfolio. \n\nWhat would you like to find today? You can ask me things like \"Show me finance applications\" or \"What productivity tools do we have for teams?\"",
    relevantApps := [],
    suggestedQueries :=
      ["Show me finance applications", "Find productivity tools for teams",
       "What security apps do we have?", "Browse entertainment applications"],
    confidence := 1 }

end MockAI

namespace RAGSearch

/-! ### `RAGSearchService` (ragSearchService module)

The service instance holds the loaded catalog and the `useGemini` flag;
both are modelled as explicit state.  Calls into `GeminiAIService` are
parameterised by the backend oracle of that call.  The embedding counts
the method invocations made on each provider, which is the call-count
instrumentation the specification asks fallback properties to be verified
with. -/

inductive ResultKind
  | application
  | datasource
deriving DecidableEq, Repr

structure AISearchResult where
  id : String
  title : String
  description : String
  category : String
  relevanceScore : ℚ
  type' : ResultKind
deriving DecidableEq, Repr

/-- Stop-word set of `extractSearchTerms` (the source array repeats a few
words; `Set` membership makes the repetition harmless and `List.contains`
matches that). -/
def stopWordsSearch : List String :=
  ["the", "a", "an", "and", "or", "but", "in", "on", "at", "to", "for",
   "of", "with", "by", "from", "up", "about", "into", "through", "during",
   "before", "after", "above", "below", "between", "among", "this", "that",
   "these", "those", "i", "me", "my", "myself", "we", "our", "ours", "ourselves",
   "you", "your", "yours", "yourself", "yourselves", "he", "him", "his", "himself",
   "she", "her", "hers", "herself", "it", "its", "itself", "they", "them", "their",
   "theirs", "themselves", "what", "which", "who", "whom", "whose", "this", "that",
   "these", "those", "am", "is", "are", "was", "were", "be", "been", "being",
   "have", "has", "had", "having", "do", "does", "did", "doing", "will", "would",
   "could", "should", "may", "might", "must", "can", "find", "search", "show", "get"]

/-- `RAGSearchService.extractSearchTerms`: split on whitespace, filter the
raw tokens by length and stop-word membership, and only then delete the
non-word characters of each surviving token. -/
def extractSearchTerms (query : String) : List String :=
  ((splitWs query).filter
    (fun term => term.length > 2 && !(stopWordsSearch.contains term))).map stripNonWord

def popularCategories : List String := ["Finance", "Security", "Productivity", "Social"]

/-- `RAGSearchService.calculateRelevanceScore`. -/
def calculateRelevanceScore (app : CSVApp) (searchTerms : List String)
    (fullQuery : String) : ℚ :=
  let appName := strToLower app.app_name
  let appDescription := strToLower app.description
  let appCategory := strToLower app.category
  let score : ℚ := 0
  let score := if strIncludes appName fullQuery then ratAdd score 10 else score
  let score := if strIncludes appCategory fullQuery then ratAdd score 5 else score
  let score := if strIncludes appDescription fullQuery then ratAdd score 3 else score
  let score := searchTerms.foldl
    (fun s term =>
      let s := if strIncludes appName term then ratAdd s 2 else s
      let s := if strIncludes appCategory term then ratAdd s (mkRat 3 2) else s
      if strIncludes appDescription term then ratAdd s 1 else s)
    score
  let score :=
    if popularCategories.contains app.category then ratAdd score (mkRat 1 2) else score
  min (ratDivNat score 10) 1

/-- `RAGSearchService.search` with the result limit made explicit (the
declared default is `limit = 10`). -/
def search (csvData : List CSVApp) (query : String) (limit : Nat) :
    List AISearchResult :=
  if (strTrim query).length == 0 then []
  else
    let searchTerms := extractSearchTerms (strToLower query)
    let results := csvData.filterMap (fun app =>
      let relevanceScore := calculateRelevanceScore app searchTerms (strToLower query)
      if relevanceScore > mkRat 1 10 then
        some { id := app.app_id, title := app.app_name, description := app.description,
               category := app.category, relevanceScore := relevanceScore,
               type' := ResultKind.application }
      else none)
    (sortDescBy (fun r => r.relevanceScore) results).take limit

/-- The declared default of `search`'s `limit` parameter. -/
def searchDefaultLimit : Nat := 10

/-- The oracles for the generative-backend calls a single `searchWithAI`
invocation may make (one per `GeminiAIService` method involved). -/
structure GeminiBackend where
  welcomeText : Except JSError String
  intentParse : Except JSError (Option IntentResult)
  responseText : Except JSError String

/-- The mutable fields of a `RAGSearchService` instance. -/
structure RAGState where
  csvData : List CSVApp
  useGemini : Bool
deriving DecidableEq, Repr

structure EnhancedAISearchResponse where
  results : List AISearchResult
  aiResponse : Option GeminiAI.GeminiAIResponse
  intent : Option IntentResult
deriving DecidableEq, Repr

/-- Outcome of one `searchWithAI` call: the returned response, the state of
the service afterwards, and how many method calls were made on the gemini
and mock providers. -/
structure StepOut where
  response : EnhancedAISearchResponse
  state : RAGState
  geminiCalls : Nat
  mockCalls : Nat
deriving DecidableEq, Repr

/-- `RAGSearchService.searchWithAI`.

Every `GeminiAIService` method called here (`generateWelcomeResponse`,
`analyzeIntent`, `generateResponse`) wraps its own body in `try`/`catch`
and returns normally on failure, so the `catch` handlers inside
`searchWithAI` that would set `useGemini := false` can never fire; the
state is returned unchanged on every path. -/
def searchWithAI (backend : GeminiBackend) (shuffle : List String → List String)
    (st : RAGState) (query : String) (limit : Nat) (useAI : Bool) : StepOut :=
  if (strTrim query).length == 0 then
    if useAI then
      if st.useGemini then
        { response :=
            { results := [],
              aiResponse := some (GeminiAI.generateWelcomeResponse backend.welcomeText st.csvData),
              intent := none },
          state := st, geminiCalls := 1, mockCalls := 0 }
      else
        { response :=
            { results := [],
              aiResponse := some (MockAI.generateWelcomeResponse st.csvData),
              intent := none },
          state := st, geminiCalls := 0, mockCalls := 1 }
    else
      { response := { results := [], aiResponse := none, intent := none },
        state := st, geminiCalls := 0, mockCalls := 0 }
  else
    let results := search st.csvData query limit
    if !useAI then
      { response := { results := results, aiResponse := none, intent := none },
        state := st, geminiCalls := 0, mockCalls := 0 }
    else
      let relevantApps := results.filterMap
        (fun result => st.csvData.find? (fun app => app.app_id == result.id))
      if st.useGemini then
        { response :=
            { results := results,
              aiResponse := some (GeminiAI.generateResponse backend.responseText relevantApps),
              intent := some (GeminiAI.analyzeIntent backend.intentParse query) },
          state := st, geminiCalls := 2, mockCalls := 0 }
      else
        { response :=
            { results := results,
              aiResponse := some (MockAI.generateResponse shuffle query st.csvData relevantApps),
              intent := some (MockAI.analyzeIntent query) },
          state := st, geminiCalls := 0, mockCalls := 2 }

/-- `RAGSearchService.setUseGemini`. -/
def setUseGemini (st : RAGState) (useGemini : Bool) : RAGState :=
  { st with useGemini := useGemini }

/-- `RAGSearchService.retryWithGemini`. -/
def retryWithGemini (st : RAGState) : RAGState :=
  { st with useGemini := true }

end RAGSearch

/-! ### Spec-side definitions for the refinement comparisons -/

/-- The SearchTerm recipe exactly as the specification words it: lower-case
the query, strip punctuation, split on whitespace, and then remove the
given fixed stop-word set and all tokens of length at most 2.  This is the
spec-side definition used to compare the two source term extractors against
the claimed pipeline. -/
def specSearchTermSet (stopWords : List String) (query : String) : List String :=
  (splitWs (stripPunctToSpace (strToLower query))).filter
    (fun token => !(stopWords.contains token) && token.length > 2)

/-- An additive scoring bonus awarded when a condition holds (spec-side
building block for the claimed scoring formulas). -/
def specBonus (cond : Bool) (v : ℚ) : ℚ := if cond then v else 0

/-- The plain-search raw score exactly as the claim words it: +10 for
full-query-in-name, +5 for full-query-in-category, +3 for
full-query-in-description, +2/+1.5/+1 per matched term in
name/category/description, +0.5 if the category is in the fixed popular
list.  Spec-side definition for the refinement comparison. -/
def specPlainRawScore (app : CSVApp) (searchTerms : List String) (fullQuery : String) : ℚ :=
  specBonus (strIncludes (strToLower app.app_name) fullQuery) 10
    + specBonus (strIncludes (strToLower app.category) fullQuery) 5
    + specBonus (strIncludes (strToLower app.description) fullQuery) 3
    + (searchTerms.map (fun term =>
        specBonus (strIncludes (strToLower app.app_name) term) 2
          + specBonus (strIncludes (strToLower app.category) term) (3/2)
          + specBonus (strIncludes (strToLower app.description) term) 1)).sum
    + specBonus (RAGSearch.popularCategories.contains app.category) (1/2)

/-- The ordered category pattern table of the local intent classifier as the
spec describes it, amended: Finance is triggered by finance/money only (the
claimed "payment" trigger does not exist in the code). -/
def specCategoryPatterns : List (List String × String) :=
  [(["finance", "money"], "Finance"),
   (["security", "privacy"], "Security"),
   (["productivity", "work"], "Productivity"),
   (["entertainment", "music", "game"], "Entertainment")]

/-- The fixed action-verb set of the local intent classifier. -/
def specActionVerbs : List String := ["find", "show", "get", "need"]

/-- The local intent classifier as the spec describes it (amended): test the
ordered category patterns first-match-wins; otherwise an action-verb keyword
yields `feature`; otherwise `general`; keywords are the query tokens longer
than 2 characters; a templated intent sentence; always returns a value. -/
def specAnalyzeIntent (query : String) : IntentResult :=
  let lower := strToLower query
  let keywords := (splitOnSpace lower).filter (fun w => w.length > 2)
  match specCategoryPatterns.find? (fun pc => pc.1.any (fun p => strIncludes lower p)) with
  | some pc =>
    { intent := "Find applications in the " ++ pc.2 ++ " category",
      category := some pc.2, keywords := keywords, searchType := SearchType.category }
  | none =>
    { intent :=
        if strIncludes lower "best" || strIncludes lower "top" then
          "Find the best applications"
        else if strIncludes lower "team" || strIncludes lower "collaboration" then
          "Find team collaboration tools"
        else "Find relevant applications",
      category := none, keywords := keywords,
      searchType :=
        if keywords.any (fun w => specActionVerbs.contains w) then SearchType.feature
        else SearchType.general }

/-! ### Lemmas -/

theorem charsInfixOf_iff (needle : List Char) :
    ∀ hay : List Char, charsInfixOf needle hay = true ↔ needle <:+: hay := by
  intro hay
  induction hay with
  | nil =>
    simp only [charsInfixOf, List.isPrefixOf_iff_prefix, List.infix_nil,
      List.prefix_nil]
  | cons c rest ih =>
    simp only [charsInfixOf, Bool.or_eq_true, List.isPrefixOf_iff_prefix, ih,
      List.infix_cons_iff]

theorem strIncludes_iff (hay needle : String) :
    strIncludes hay needle = true ↔ needle.data <:+: hay.data :=
  charsInfixOf_iff needle.data hay.data

theorem ratAdd_eq (a b : ℚ) : ratAdd a b = a + b := by
  have ha : ((a.den : ℤ)) ≠ 0 := Int.natCast_ne_zero.mpr a.den_nz
  have hb : ((b.den : ℤ)) ≠ 0 := Int.natCast_ne_zero.mpr b.den_nz
  rw [ratAdd, Rat.mkRat_eq_divInt]
  push_cast
  rw [← Rat.divInt_add_divInt _ _ ha hb, Rat.num_divInt_den, Rat.num_divInt_den]

theorem mkRat_eq_div (n : ℤ) (d : ℕ) : mkRat n d = (n : ℚ) / (d : ℚ) := by
  rw [Rat.mkRat_eq_divInt, Rat.divInt_eq_div]
  norm_num

theorem ratDivNat_eq (a : ℚ) (n : ℕ) : ratDivNat a n = a / (n : ℚ) := by
  rw [ratDivNat, mkRat_eq_div]
  push_cast
  rw [← div_div, Rat.num_div_den]

theorem mem_insertDescBy {α β : Type} [LinearOrder β] (key : α → β) (x a : α)
    (l : List α) : a ∈ insertDescBy key x l ↔ a = x ∨ a ∈ l := by
  induction l with
  | nil => simp [insertDescBy]
  | cons y ys ih =>
    by_cases h : key y ≤ key x
    · simp [insertDescBy, h]
    · simp only [insertDescBy, if_neg h, List.mem_cons, ih]
      tauto

theorem mem_sortDescBy {α β : Type} [LinearOrder β] (key : α → β) (a : α)
    (l : List α) : a ∈ sortDescBy key l ↔ a ∈ l := by
  induction l with
  | nil => simp [sortDescBy]
  | cons y ys ih =>
    simp only [sortDescBy, List.foldr_cons, List.mem_cons]
    rw [mem_insertDescBy]
    simp only [sortDescBy] at ih
    rw [ih]

theorem sorted_insertDescBy {α β : Type} [LinearOrder β] (key : α → β) (x : α)
    (l : List α) (hl : l.Pairwise (fun a b => key b ≤ key a)) :
    (insertDescBy key x l).Pairwise (fun a b => key b ≤ key a) := by
  induction l with
  | nil => simp [insertDescBy]
  | cons y ys ih =>
    rcases List.pairwise_cons.mp hl with ⟨hy, hys⟩
    by_cases h : key y ≤ key x
    · rw [insertDescBy, if_pos h]
      refine List.pairwise_cons.mpr ⟨?_, hl⟩
      intro z hz
      rcases List.mem_cons.mp hz with rfl | hz'
      · exact h
      · exact le_trans (hy z hz') h
    · rw [insertDescBy, if_neg h]
      refine List.pairwise_cons.mpr ⟨?_, ih hys⟩
      intro z hz
      rcases (mem_insertDescBy key x z ys).mp hz with rfl | hz'
      · exact le_of_lt (lt_of_not_le h)
      · exact hy z hz'

theorem sorted_sortDescBy {α β : Type} [LinearOrder β] (key : α → β)
    (l : List α) : (sortDescBy key l).Pairwise (fun a b => key b ≤ key a) := by
  induction l with
  | nil => simp [sortDescBy]
  | cons y ys ih => exact sorted_insertDescBy key y _ ih

theorem filter_insertDescBy {α β : Type} [LinearOrder β] (key : α → β) (x : α)
    (l : List α) (s : β) :
    (insertDescBy key x l).filter (fun a => key a = s) =
      if key x = s then x :: l.filter (fun a => key a = s)
      else l.filter (fun a => key a = s) := by
  induction l with
  | nil =>
    by_cases h : key x = s <;> simp [insertDescBy, List.filter, h]
  | cons y ys ih =>
    rw [insertDescBy]
    by_cases h : key y ≤ key x
    · rw [if_pos h]
      by_cases hx : key x = s <;> simp [List.filter_cons, hx]
    · rw [if_neg h]
      have hlt : key x < key y := lt_of_not_le h
      simp only [List.filter_cons, ih]
      by_cases hy : key y = s
      · have hx : ¬ key x = s := fun hxs => absurd (hxs.trans hy.symm) (ne_of_lt hlt)
        simp [hy, hx]
      · by_cases hx : key x = s <;> simp [hy, hx]

theorem filter_sortDescBy {α β : Type} [LinearOrder β] (key : α → β)
    (l : List α) (s : β) :
    (sortDescBy key l).filter (fun a => key a = s) =
      l.filter (fun a => key a = s) := by
  induction l with
  | nil => simp [sortDescBy]
  | cons y ys ih =>
    simp only [sortDescBy, List.foldr_cons]
    rw [filter_insertDescBy]
    simp only [sortDescBy] at ih
    by_cases hy : key y = s <;> simp [List.filter_cons, hy, ih]

/-! ### General lemmas about the string primitives -/

theorem strIncludes_append_right (a b needle : String)
    (h : strIncludes a needle = true) : strIncludes (a ++ b) needle = true := by
  rw [strIncludes_iff] at h ⊢
  rw [String.data_append]
  exact h.trans ⟨[], b.data, by simp⟩

theorem strToLower_append (a b : String) :
    strToLower (a ++ b) = strToLower a ++ strToLower b := by
  apply String.ext
  simp [strToLower]

/-! ### Membership and positivity lemmas for the discovery searchers -/

namespace AIDataDiscovery

theorem buildResult_eq_some {a2 : ScoreAcc} {mk : ScoreAcc → AISearchResult}
    {r : AISearchResult} (h : buildResult a2 mk = some r) :
    0 < a2.score ∧ r = mk a2 := by
  unfold buildResult at h
  split at h
  · exact ⟨by assumption, (Option.some.inj h).symm⟩
  · cases h

theorem pos_of_mem_searchApplications (applications : List Appl)
    (keyTerms dataTypes : List String) (r : AISearchResult)
    (h : r ∈ searchApplications applications keyTerms dataTypes) :
    0 < r.relevanceScore := by
  obtain ⟨app, -, hf⟩ := List.mem_filterMap.mp h
  dsimp only [searchApplications] at hf
  obtain ⟨hpos, rfl⟩ := buildResult_eq_some hf
  exact hpos

theorem pos_of_mem_searchDataSources (dataSources : List DataSrc)
    (keyTerms dataTypes : List String) (r : AISearchResult)
    (h : r ∈ searchDataSources dataSources keyTerms dataTypes) :
    0 < r.relevanceScore := by
  obtain ⟨ds, -, hf⟩ := List.mem_filterMap.mp h
  dsimp only [searchDataSources] at hf
  obtain ⟨hpos, rfl⟩ := buildResult_eq_some hf
  exact hpos

theorem pos_of_mem_searchTables (tables : List Table)
    (keyTerms dataTypes : List String) (r : AISearchResult)
    (h : r ∈ searchTables tables keyTerms dataTypes) :
    0 < r.relevanceScore := by
  obtain ⟨table, -, hf⟩ := List.mem_filterMap.mp h
  dsimp only [searchTables] at hf
  obtain ⟨hpos, rfl⟩ := buildResult_eq_some hf
  exact hpos

theorem pos_of_mem_searchColumns (tables : List Table)
    (keyTerms dataTypes : List String) (r : AISearchResult)
    (h : r ∈ searchColumns tables keyTerms dataTypes) :
    0 < r.relevanceScore := by
  obtain ⟨table, -, hcols⟩ := List.mem_flatMap.mp h
  obtain ⟨col, -, hf⟩ := List.mem_filterMap.mp hcols
  dsimp only [scoreColumn] at hf
  obtain ⟨hpos, rfl⟩ := buildResult_eq_some hf
  exact hpos

theorem pos_of_mem_searchDataResults (query : String) (dataSources : List DataSrc)
    (tables : List Table) (applications : List Appl) (r : AISearchResult)
    (h : r ∈ searchDataResults query dataSources tables applications) :
    0 < r.relevanceScore := by
  dsimp only [searchDataResults] at h
  rcases List.mem_append.mp h with h' | h'
  · rcases List.mem_append.mp h' with h'' | h''
    · rcases List.mem_append.mp h'' with h3 | h3
      · exact pos_of_mem_searchApplications _ _ _ r h3
      · exact pos_of_mem_searchDataSources _ _ _ r h3
    · exact pos_of_mem_searchTables _ _ _ r h''
  · exact pos_of_mem_searchColumns _ _ _ r h'

theorem mem_searchDataResults_of_mem_suggestions (query : String)
    (dataSources : List DataSrc) (tables : List Table) (applications : List Appl)
    (r : AISearchResult) (h : r ∈ (searchData query dataSources tables applications).suggestions) :
    r ∈ searchDataResults query dataSources tables applications := by
  dsimp only [searchData] at h
  exact (mem_sortDescBy _ r _).mp (List.mem_of_mem_take h)

end AIDataDiscovery

/-! ### Claim theorems -/

/-- Claim C2: for every query and catalog, the `suggestions` list returned by
`searchData` has length at most 10 and is sorted in non-increasing order of
`relevanceScore`, and any two results with equal scores appear in the order
the scorer first produced them (applications, then data sources, then
tables, then columns in catalog order): for every score value, the
equal-score results of `suggestions` form a sublist of the equal-score
results of the pre-sort accumulation order. -/
theorem C2_suggestions_top10_sorted_stable (query : String)
    (dataSources : List AIDataDiscovery.DataSrc) (tables : List AIDataDiscovery.Table)
    (applications : List AIDataDiscovery.Appl) :
    (AIDataDiscovery.searchData query dataSources tables applications).suggestions.length ≤ 10
    ∧ (AIDataDiscovery.searchData query dataSources tables applications).suggestions.Pairwise
        (fun a b => b.relevanceScore ≤ a.relevanceScore)
    ∧ ∀ s : Nat,
        ((AIDataDiscovery.searchData query dataSources tables applications).suggestions.filter
            (fun r => r.relevanceScore = s)).Sublist
          ((AIDataDiscovery.searchDataResults query dataSources tables applications).filter
            (fun r => r.relevanceScore = s)) := by
  dsimp only [AIDataDiscovery.searchData]
  refine ⟨List.length_take_le 10 _, ?_, ?_⟩
  · exact List.Pairwise.sublist (List.take_sublist 10 _)
      (sorted_sortDescBy (fun r : AIDataDiscovery.AISearchResult => r.relevanceScore)
        (AIDataDiscovery.searchDataResults query dataSources tables applications))
  · intro s
    have h1 := (List.take_sublist 10
        (sortDescBy (fun r : AIDataDiscovery.AISearchResult => r.relevanceScore)
          (AIDataDiscovery.searchDataResults query dataSources tables applications))).filter
      (fun r => decide (r.relevanceScore = s))
    have h2 := filter_sortDescBy (fun r : AIDataDiscovery.AISearchResult => r.relevanceScore)
      (AIDataDiscovery.searchDataResults query dataSources tables applications) s
    exact h2 ▸ h1

/-- Claim C3: every result in the `suggestions` list of `searchData` has a
strictly positive `relevanceScore`, and more generally every row the four
scorers accumulate has a strictly positive score - a zero-score entity
produces no result row at all. -/
theorem C3_no_zero_score_results (query : String)
    (dataSources : List AIDataDiscovery.DataSrc) (tables : List AIDataDiscovery.Table)
    (applications : List AIDataDiscovery.Appl) (r : AIDataDiscovery.AISearchResult) :
    (r ∈ AIDataDiscovery.searchDataResults query dataSources tables applications →
      0 < r.relevanceScore)
    ∧ (r ∈ (AIDataDiscovery.searchData query dataSources tables applications).suggestions →
      0 < r.relevanceScore) := by
  constructor
  · exact AIDataDiscovery.pos_of_mem_searchDataResults query dataSources tables applications r
  · intro h
    exact AIDataDiscovery.pos_of_mem_searchDataResults query dataSources tables applications r
      (AIDataDiscovery.mem_searchDataResults_of_mem_suggestions query dataSources tables
        applications r h)

/-- Witness for C3: on the concrete catalog with a single application named
"credit portal" and the query "credit", the (unique) suggestion has a
positive score. -/
theorem C3_no_zero_score_results_witness :
    0 < (⟨AIDataDiscovery.ResultType.application, "a1", "credit portal", 30,
      "Matches \"credit\" in application details.", "Application: credit portal",
      false, AIDataDiscovery.MatchType.semantic⟩ : AIDataDiscovery.AISearchResult).relevanceScore :=
  (C3_no_zero_score_results "credit" [] [] [⟨"a1", "credit portal", "", []⟩]
    ⟨AIDataDiscovery.ResultType.application, "a1", "credit portal", 30,
      "Matches \"credit\" in application details.", "Application: credit portal",
      false, AIDataDiscovery.MatchType.semantic⟩).2 (by decide)

/-- Counterexample to claim C4: in the catalog with the single table
`payments` (stored `sensitive = false`) owning the sensitive column
`card_number`, the query "payments" yields a table-level result whose
`sensitive` flag is `false`, and the warning logic emits no
sensitive-data warning - the stored table flag is not aggregated with the
column flags. -/
theorem C4_counterexample :
    ((AIDataDiscovery.searchData "payments" []
        [⟨"t1", "payments", "public", "", [], false,
          [⟨"card_number", none, "varchar(16)", true⟩]⟩] []).suggestions.any
      (fun r => r.type' == AIDataDiscovery.ResultType.table && r.name == "payments"
        && !r.sensitive)) = true
    ∧ (([⟨"card_number", none, "varchar(16)", true⟩] : List AIDataDiscovery.Column).any
        (fun c => c.sensitive)) = true
    ∧ ((AIDataDiscovery.searchData "payments" []
        [⟨"t1", "payments", "public", "", [], false,
          [⟨"card_number", none, "varchar(16)", true⟩]⟩] []).warnings.any
      (fun w => strIncludes w "sensitive data")) = false := by
  refine ⟨?_, ?_, ?_⟩ <;> decide

/-- Claim C4 as amended: sensitivity is not aggregated upward at table
level.  A table-level result carries exactly the table's stored `sensitive`
flag, while a column-level result carries `column.sensitive || table.sensitive`;
the warning logic of `searchData` inspects only each result's own flag. -/
theorem C4_amended_table_results_use_stored_flag (tables : List AIDataDiscovery.Table)
    (keyTerms dataTypes : List String) (r : AIDataDiscovery.AISearchResult) :
    (r ∈ AIDataDiscovery.searchTables tables keyTerms dataTypes →
      ∃ t, t ∈ tables ∧ r.sensitive = t.sensitive)
    ∧ (r ∈ AIDataDiscovery.searchColumns tables keyTerms dataTypes →
      ∃ t, t ∈ tables ∧ ∃ c, c ∈ t.columns ∧ r.sensitive = (c.sensitive || t.sensitive)) := by
  constructor
  · intro h
    obtain ⟨t, ht, hf⟩ := List.mem_filterMap.mp h
    dsimp only [AIDataDiscovery.searchTables] at hf
    obtain ⟨-, rfl⟩ := AIDataDiscovery.buildResult_eq_some hf
    exact ⟨t, ht, rfl⟩
  · intro h
    obtain ⟨t, ht, hcols⟩ := List.mem_flatMap.mp h
    obtain ⟨c, hc, hf⟩ := List.mem_filterMap.mp hcols
    dsimp only [AIDataDiscovery.scoreColumn] at hf
    obtain ⟨-, rfl⟩ := AIDataDiscovery.buildResult_eq_some hf
    exact ⟨t, ht, c, hc, rfl⟩

/-- Witness for the amended C4: the table result produced for the
`payments` table reports that table's stored flag. -/
theorem C4_amended_table_results_use_stored_flag_witness :
    ∃ t, t ∈ ([⟨"t1", "payments", "public", "", [], false,
        [⟨"card_number", none, "varchar(16)", true⟩]⟩] : List AIDataDiscovery.Table)
      ∧ (⟨AIDataDiscovery.ResultType.table, "t1", "payments", 20,
          "Matches \"payments\" in table.", "Table: public.payments", false,
          AIDataDiscovery.MatchType.semantic⟩ : AIDataDiscovery.AISearchResult).sensitive
        = t.sensitive :=
  (C4_amended_table_results_use_stored_flag
    [⟨"t1", "payments", "public", "", [], false,
      [⟨"card_number", none, "varchar(16)", true⟩]⟩] ["payments"] []
    ⟨AIDataDiscovery.ResultType.table, "t1", "payments", 20,
      "Matches \"payments\" in table.", "Table: public.payments", false,
      AIDataDiscovery.MatchType.semantic⟩).1 (by decide)

namespace AIDataDiscovery

/-- Any column literally named `card_number` receives the +100
direct-field-name bonus and the `exact` tag when scored for a
`credit_card`-type query with key terms `credit card`. -/
theorem scoreColumn_card_number (t : Table) (c : Column) (hcn : c.name = "card_number") :
    ∃ r, scoreColumn ["credit", "card"] ["credit_card"] t c = some r
      ∧ r.type' = ResultType.column ∧ r.name = "card_number"
      ∧ r.matchType = MatchType.exact ∧ 100 ≤ r.relevanceScore := by
  have hcard : strIncludes
      (strToLower ("card_number" ++ " " ++ c.description.getD "" ++ " " ++ c.colType))
        "card" = true := by
    simp only [strToLower_append]
    exact strIncludes_append_right _ _ _
      (strIncludes_append_right _ _ _
        (strIncludes_append_right _ _ _ (by decide)))
  have hdc : (["credit_card"] : List String).contains "credit_card" = true := by decide
  have hnm : (strToLower "card_number" == "card_number"
      || strToLower "card_number" == "credit_card"
      || strToLower "card_number" == "cc_number"
      || strToLower "card_number" == "payment_card") = true := by decide
  dsimp only [scoreColumn]
  rw [hcn]
  by_cases hb : strIncludes
      (strToLower ("card_number" ++ " " ++ c.description.getD "" ++ " " ++ c.colType))
        "credit" = true
  · simp only [termScan, List.foldl_cons, List.foldl_nil, hb, hcard, hdc, hnm,
      if_true, buildResult]
    exact ⟨_, rfl, rfl, rfl, rfl, by norm_num⟩
  · simp only [termScan, List.foldl_cons, List.foldl_nil, hb, hcard, hdc, hnm,
      if_true, if_false, buildResult]
    exact ⟨_, rfl, rfl, rfl, rfl, by norm_num⟩

/-- If any suggestion is a column whose name matches `/card|payment/i`, the
PCI warning is emitted. -/
theorem pci_of_column_in_suggestions (suggestions : List AISearchResult)
    (r : AISearchResult) (hr : r ∈ suggestions) (h1 : r.type' = ResultType.column)
    (h2 : testAnyCI ["card", "payment"] r.name = true) :
    pciWarning ∈ generateWarnings suggestions := by
  dsimp only [generateWarnings]
  have hmem : r ∈ suggestions.filter
      (fun s => s.type' == ResultType.column && testAnyCI ["card", "payment"] s.name) :=
    List.mem_filter.mpr ⟨hr, by simp [h1, h2]⟩
  have hlen : 0 < (suggestions.filter
      (fun s => s.type' == ResultType.column && testAnyCI ["card", "payment"] s.name)).length :=
    List.length_pos.mpr (List.ne_nil_of_mem hmem)
  apply List.mem_append_right
  rw [if_pos hlen]
  exact List.mem_singleton.mpr rfl

end AIDataDiscovery

/-- Counterexample to claim C5: the catalog below contains the table
`customers` (schema `public`) with a column `card_number`, yet for the query
"credit card" ten applications score 140 each and fill all ten suggestion
slots, so `searchData` returns no column result at all and no PCI-DSS
warning - the claim does not hold for every such catalog. -/
theorem C5_counterexample :
    ((AIDataDiscovery.searchData "credit card" []
        [⟨"t1", "customers", "public", "", [], false,
          [⟨"card_number", none, "varchar(16)", true⟩]⟩]
        [⟨"a0", "credit card payment portal", "", []⟩,
         ⟨"a1", "credit card payment portal", "", []⟩,
         ⟨"a2", "credit card payment portal", "", []⟩,
         ⟨"a3", "credit card payment portal", "", []⟩,
         ⟨"a4", "credit card payment portal", "", []⟩,
         ⟨"a5", "credit card payment portal", "", []⟩,
         ⟨"a6", "credit card payment portal", "", []⟩,
         ⟨"a7", "credit card payment portal", "", []⟩,
         ⟨"a8", "credit card payment portal", "", []⟩,
         ⟨"a9", "credit card payment portal", "", []⟩]).suggestions.all
      (fun r => r.type' == AIDataDiscovery.ResultType.application)) = true
    ∧ ((AIDataDiscovery.searchData "credit card" []
        [⟨"t1", "customers", "public", "", [], false,
          [⟨"card_number", none, "varchar(16)", true⟩]⟩]
        [⟨"a0", "credit card payment portal", "", []⟩,
         ⟨"a1", "credit card payment portal", "", []⟩,
         ⟨"a2", "credit card payment portal", "", []⟩,
         ⟨"a3", "credit card payment portal", "", []⟩,
         ⟨"a4", "credit card payment portal", "", []⟩,
         ⟨"a5", "credit card payment portal", "", []⟩,
         ⟨"a6", "credit card payment portal", "", []⟩,
         ⟨"a7", "credit card payment portal", "", []⟩,
         ⟨"a8", "credit card payment portal", "", []⟩,
         ⟨"a9", "credit card payment portal", "", []⟩]).warnings.contains
      AIDataDiscovery.pciWarning) = false := by
  refine ⟨?_, ?_⟩ <;> decide

/-- Claim C5 as amended: against any catalog containing a table `customers`
(schema `public`) with a column `card_number`, the query "credit card" makes
the scorer produce (in the full, pre-truncation result list) a column result
for `card_number` with matchType `exact` whose score includes the +100
direct-field-name bonus; and whenever a payment/card-named column result
survives into the top-10 `suggestions`, the warnings list contains the
PCI-DSS entry.  (The column result itself can be crowded out of the top 10,
see the counterexample.) -/
theorem C5_amended_exact_column_and_pci (dataSources : List AIDataDiscovery.DataSrc)
    (tables : List AIDataDiscovery.Table) (applications : List AIDataDiscovery.Appl)
    (t : AIDataDiscovery.Table) (c : AIDataDiscovery.Column) (ht : t ∈ tables)
    (htn : t.name = "customers") (hts : t.schema = "public") (hc : c ∈ t.columns)
    (hcn : c.name = "card_number") :
    (∃ r ∈ AIDataDiscovery.searchDataResults "credit card" dataSources tables applications,
        r.type' = AIDataDiscovery.ResultType.column ∧ r.name = "card_number"
          ∧ r.matchType = AIDataDiscovery.MatchType.exact ∧ 100 ≤ r.relevanceScore)
    ∧ (∀ r ∈ (AIDataDiscovery.searchData "credit card" dataSources tables applications).suggestions,
        r.type' = AIDataDiscovery.ResultType.column →
        AIDataDiscovery.testAnyCI ["card", "payment"] r.name = true →
        AIDataDiscovery.pciWarning ∈
          (AIDataDiscovery.searchData "credit card" dataSources tables applications).warnings) := by
  constructor
  · have hkt : AIDataDiscovery.extractKeyTerms (strToLower "credit card") = ["credit", "card"] := by
      decide
    have hdt : AIDataDiscovery.identifyDataTypes (strToLower "credit card") = ["credit_card"] := by
      decide
    obtain ⟨r, hsome, h1, h2, h3, h4⟩ := AIDataDiscovery.scoreColumn_card_number t c hcn
    refine ⟨r, ?_, h1, h2, h3, h4⟩
    dsimp only [AIDataDiscovery.searchDataResults]
    rw [hkt, hdt]
    apply List.mem_append_right
    exact List.mem_flatMap.mpr ⟨t, ht, List.mem_filterMap.mpr ⟨c, hc, hsome⟩⟩
  · intro r hr h1 h2
    dsimp only [AIDataDiscovery.searchData] at hr ⊢
    exact AIDataDiscovery.pci_of_column_in_suggestions _ r hr h1 h2

/-- Witness for the amended C5 on the one-table catalog: the exact
card_number column result exists and the PCI warning logic fires for it. -/
theorem C5_amended_exact_column_and_pci_witness :
    (∃ r ∈ AIDataDiscovery.searchDataResults "credit card" []
        [⟨"t1", "customers", "public", "", [], false,
          [⟨"card_number", none, "varchar(16)", true⟩]⟩] [],
        r.type' = AIDataDiscovery.ResultType.column ∧ r.name = "card_number"
          ∧ r.matchType = AIDataDiscovery.MatchType.exact ∧ 100 ≤ r.relevanceScore)
    ∧ (∀ r ∈ (AIDataDiscovery.searchData "credit card" []
        [⟨"t1", "customers", "public", "", [], false,
          [⟨"card_number", none, "varchar(16)", true⟩]⟩] []).suggestions,
        r.type' = AIDataDiscovery.ResultType.column →
        AIDataDiscovery.testAnyCI ["card", "payment"] r.name = true →
        AIDataDiscovery.pciWarning ∈
          (AIDataDiscovery.searchData "credit card" []
            [⟨"t1", "customers", "public", "", [], false,
              [⟨"card_number", none, "varchar(16)", true⟩]⟩] []).warnings) :=
  C5_amended_exact_column_and_pci []
    [⟨"t1", "customers", "public", "", [], false,
      [⟨"card_number", none, "varchar(16)", true⟩]⟩] []
    ⟨"t1", "customers", "public", "", [], false,
      [⟨"card_number", none, "varchar(16)", true⟩]⟩
    ⟨"card_number", none, "varchar(16)", true⟩
    (List.mem_singleton.mpr rfl) rfl rfl (List.mem_singleton.mpr rfl) rfl

/-- Counterexample to claim C1: with a generative backend stub that always
fails, starting from PRIMARY (`useGemini = true`), one query does NOT
transition the orchestrator to DEGRADED: the failure is absorbed inside
`GeminiAIService` (which returns its network-error answer itself), the state
stays PRIMARY, the local backend is never invoked for that query, and the
generative backend is still invoked. -/
theorem C1_counterexample :
    (RAGSearch.searchWithAI
        ⟨Except.error (JSError.error "fetch failed"), Except.error (JSError.error "fetch failed"),
          Except.error (JSError.error "fetch failed")⟩
        id ⟨[], true⟩ "credit" 10 true).state.useGemini = true
    ∧ (RAGSearch.searchWithAI
        ⟨Except.error (JSError.error "fetch failed"), Except.error (JSError.error "fetch failed"),
          Except.error (JSError.error "fetch failed")⟩
        id ⟨[], true⟩ "credit" 10 true).mockCalls = 0
    ∧ (RAGSearch.searchWithAI
        ⟨Except.error (JSError.error "fetch failed"), Except.error (JSError.error "fetch failed"),
          Except.error (JSError.error "fetch failed")⟩
        id ⟨[], true⟩ "credit" 10 true).geminiCalls = 2 := by
  refine ⟨?_, ?_, ?_⟩ <;> decide

/-- Claim C1 as amended: `searchWithAI` never changes the `useGemini` flag -
because every `GeminiAIService` method absorbs its own failures and returns
normally, the failure-triggered demotion in `searchWithAI`'s catch handlers
is unreachable, so the orchestrator stays PRIMARY and keeps invoking the
generative backend.  In DEGRADED state (`useGemini = false`) queries go
straight to the local backend with zero generative-backend invocations, and
the only operations that set the flag are the explicit `setUseGemini` and
`retryWithGemini`. -/
theorem C1_amended_flag_only_changed_explicitly (backend : RAGSearch.GeminiBackend)
    (shuffle : List String → List String) (st : RAGSearch.RAGState) (query : String)
    (limit : Nat) (useAI : Bool) (b : Bool) :
    (RAGSearch.searchWithAI backend shuffle st query limit useAI).state = st
    ∧ (st.useGemini = false →
        (RAGSearch.searchWithAI backend shuffle st query limit useAI).geminiCalls = 0)
    ∧ (RAGSearch.setUseGemini st b).useGemini = b
    ∧ (RAGSearch.retryWithGemini st).useGemini = true := by
  refine ⟨?_, ?_, rfl, rfl⟩
  · dsimp only [RAGSearch.searchWithAI]
    repeat' split
    all_goals rfl
  · intro h
    dsimp only [RAGSearch.searchWithAI]
    repeat' split
    all_goals simp_all

/-- Witness for the amended C1: a concrete DEGRADED-state query with a
failing backend leaves the state unchanged and makes no generative-backend
invocation. -/
theorem C1_amended_flag_only_changed_explicitly_witness :
    (RAGSearch.searchWithAI
        ⟨Except.error (JSError.error "fetch failed"), Except.error (JSError.error "fetch failed"),
          Except.error (JSError.error "fetch failed")⟩
        id ⟨[], false⟩ "credit" 10 true).state = ⟨[], false⟩
    ∧ (RAGSearch.searchWithAI
        ⟨Except.error (JSError.error "fetch failed"), Except.error (JSError.error "fetch failed"),
          Except.error (JSError.error "fetch failed")⟩
        id ⟨[], false⟩ "credit" 10 true).geminiCalls = 0 := by
  have h := C1_amended_flag_only_changed_explicitly
    ⟨Except.error (JSError.error "fetch failed"), Except.error (JSError.error "fetch failed"),
      Except.error (JSError.error "fetch failed")⟩
    id ⟨[], false⟩ "credit" 10 true true
  exact ⟨h.1, h.2.1 rfl⟩

/-- Claim C6: `GeminiAIService.generateResponse` never propagates a backend
failure - it is a total function of the backend outcome - and classifies
failures: a CORS/fetch message yields the fixed network-error answer with
confidence 0.8, otherwise an "API key" message yields the fixed key-error
answer with confidence 0.1, and any other failure yields the generic
error answer embedding the failure message with confidence 0.1; every
returned response (success included) has confidence within [0, 1]. -/
theorem C6_generateResponse_failure_classes (msg : String) (apps : List CSVApp) :
    ((strIncludes msg "CORS" || strIncludes msg "fetch") = true →
      (GeminiAI.generateResponse (Except.error (JSError.error msg)) apps).answer
          = "⚠️ Network Error: The Gemini API cannot be accessed directly from the browser due to CORS restrictions. However, I can still help you search through the applications using our local search capabilities."
        ∧ (GeminiAI.generateResponse (Except.error (JSError.error msg)) apps).confidence = 8/10)
    ∧ ((strIncludes msg "CORS" || strIncludes msg "fetch") = false →
        strIncludes msg "API key" = true →
      (GeminiAI.generateResponse (Except.error (JSError.error msg)) apps).answer
          = "🔑 API Key Error: There seems to be an issue with the Gemini API key configuration. Please check the API key and try again."
        ∧ (GeminiAI.generateResponse (Except.error (JSError.error msg)) apps).confidence = 1/10)
    ∧ ((strIncludes msg "CORS" || strIncludes msg "fetch") = false →
        strIncludes msg "API key" = false →
      (GeminiAI.generateResponse (Except.error (JSError.error msg)) apps).answer
          = "❌ AI Service Error: " ++ msg ++ ". Using fallback search results instead."
        ∧ (GeminiAI.generateResponse (Except.error (JSError.error msg)) apps).confidence = 1/10)
    ∧ (∀ outcome : Except JSError String,
        0 ≤ (GeminiAI.generateResponse outcome apps).confidence
          ∧ (GeminiAI.generateResponse outcome apps).confidence ≤ 1) := by
  refine ⟨?_, ?_, ?_, ?_⟩
  · intro h
    dsimp only [GeminiAI.generateResponse]
    rw [if_pos h]
    exact ⟨rfl, rfl⟩
  · intro h hk
    dsimp only [GeminiAI.generateResponse]
    rw [if_neg (by simp [h]), if_pos hk]
    exact ⟨rfl, rfl⟩
  · intro h hk
    dsimp only [GeminiAI.generateResponse]
    rw [if_neg (by simp [h]), if_neg (by simp [hk])]
    exact ⟨rfl, rfl⟩
  · intro outcome
    match outcome with
    | Except.ok text =>
      dsimp only [GeminiAI.generateResponse, GeminiAI.parseResponse]
      repeat' split
      all_goals norm_num
    | Except.error (JSError.error m) =>
      dsimp only [GeminiAI.generateResponse]
      repeat' split
      all_goals norm_num
    | Except.error JSError.nonError =>
      dsimp only [GeminiAI.generateResponse]
      norm_num

/-- Witness for C6: concrete error messages hit each classification
branch. -/
theorem C6_generateResponse_failure_classes_witness :
    (GeminiAI.generateResponse (Except.error (JSError.error "failed to fetch")) []).confidence = 8/10
    ∧ (GeminiAI.generateResponse (Except.error (JSError.error "bad API key")) []).confidence = 1/10
    ∧ (GeminiAI.generateResponse (Except.error (JSError.error "boom")) []).answer
        = "❌ AI Service Error: " ++ "boom" ++ ". Using fallback search results instead." := by
  refine ⟨?_, ?_, ?_⟩
  · exact ((C6_generateResponse_failure_classes "failed to fetch" []).1 (by decide)).2
  · exact ((C6_generateResponse_failure_classes "bad API key" []).2.1 (by decide) (by decide)).2
  · exact ((C6_generateResponse_failure_classes "boom" []).2.2.1 (by decide) (by decide)).1

/-- Counterexample to claim C7: the plain-search extractor
`RAGSearchService.extractSearchTerms` filters stop words and short tokens
BEFORE stripping punctuation, so on the query "the." it keeps the token and
then strips it to the stop word "the", which the claimed recipe would have
removed. -/
theorem C7_counterexample :
    RAGSearch.extractSearchTerms "the." = ["the"]
    ∧ specSearchTermSet RAGSearch.stopWordsSearch "the." = []
    ∧ RAGSearch.stopWordsSearch.contains "the" = true := by
  refine ⟨?_, ?_, ?_⟩ <;> decide

/-- Claim C7 as amended: the discovery scorer's term extractor
`AIDataDiscoveryService.extractKeyTerms` computes exactly the claimed
pipeline (strip punctuation first, then filter), so a token that becomes a
stop word or short only after punctuation stripping is removed there; the
plain-search extractor `extractSearchTerms` instead filters the raw
whitespace tokens first and deletes punctuation afterwards. -/
theorem C7_amended_extractKeyTerms_matches_recipe (query : String) :
    AIDataDiscovery.extractKeyTerms query
      = specSearchTermSet AIDataDiscovery.stopWordsDiscovery query := by
  dsimp only [AIDataDiscovery.extractKeyTerms, specSearchTermSet]
  apply List.filter_congr
  intro t _
  exact Bool.and_comm _ _

theorem foldl_term_bonus (n c d : String) (terms : List String) : ∀ init : ℚ,
    terms.foldl
      (fun s term =>
        let s := if strIncludes n term then ratAdd s 2 else s
        let s := if strIncludes c term then ratAdd s (mkRat 3 2) else s
        if strIncludes d term then ratAdd s 1 else s)
      init
    = init + (terms.map (fun term =>
        specBonus (strIncludes n term) 2 + specBonus (strIncludes c term) (3/2)
          + specBonus (strIncludes d term) 1)).sum := by
  induction terms with
  | nil => intro init; simp
  | cons t ts ih =>
    intro init
    simp only [List.foldl_cons, List.map_cons, List.sum_cons]
    rw [ih]
    by_cases h1 : strIncludes n t = true <;> by_cases h2 : strIncludes c t = true <;>
      by_cases h3 : strIncludes d t = true <;>
      simp [specBonus, ratAdd_eq, h1, h2, h3, mkRat_eq_div] <;> ring

/-- Claim C8: the plain search path computes the raw score from the claimed
bonuses, divides by 10 and clamps to 1.0; results at or below the 0.1
threshold are excluded; and the output is sorted descending and truncated
to the caller-supplied limit, whose declared default is 10. -/
theorem C8_plain_search_algorithm (csvData : List CSVApp) (query : String) (limit : Nat)
    (app : CSVApp) (terms : List String) (q : String) (r : RAGSearch.AISearchResult) :
    RAGSearch.calculateRelevanceScore app terms q
        = min (specPlainRawScore app terms q / 10) 1
    ∧ (r ∈ RAGSearch.search csvData query limit → 1/10 < r.relevanceScore)
    ∧ (RAGSearch.search csvData query limit).Pairwise
        (fun a b => b.relevanceScore ≤ a.relevanceScore)
    ∧ (RAGSearch.search csvData query limit).length ≤ limit
    ∧ RAGSearch.searchDefaultLimit = 10 := by
  refine ⟨?_, ?_, ?_, ?_, rfl⟩
  · dsimp only [RAGSearch.calculateRelevanceScore, specPlainRawScore]
    rw [foldl_term_bonus]
    by_cases hA : strIncludes (strToLower app.app_name) q = true <;>
      by_cases hB : strIncludes (strToLower app.category) q = true <;>
      by_cases hC : strIncludes (strToLower app.description) q = true <;>
      by_cases hP : RAGSearch.popularCategories.contains app.category = true <;>
      simp only [hA, hB, hC, hP, if_true, if_false, Bool.false_eq_true, specBonus,
        ratAdd_eq, ratDivNat_eq, mkRat_eq_div] <;>
      norm_num <;> congr 1 <;> ring
  · intro h
    dsimp only [RAGSearch.search] at h
    split at h
    · cases h
    · obtain ⟨a, -, hf⟩ := List.mem_filterMap.mp
        ((mem_sortDescBy _ r _).mp (List.mem_of_mem_take h))
      split at hf
      next hgt =>
        cases Option.some.inj hf
        have h110 : (mkRat 1 10 : ℚ) = 1/10 := by rw [mkRat_eq_div]; norm_num
        exact h110 ▸ hgt
      next => cases hf
  · dsimp only [RAGSearch.search]
    split
    · exact List.Pairwise.nil
    · exact List.Pairwise.sublist (List.take_sublist limit _)
        (sorted_sortDescBy (fun r : RAGSearch.AISearchResult => r.relevanceScore) _)
  · dsimp only [RAGSearch.search]
    split
    · simp
    · exact List.length_take_le limit _

/-- Witness for C8: the scoring identity and the threshold property at a
concrete application and query. -/
theorem C8_plain_search_algorithm_witness :
    RAGSearch.calculateRelevanceScore ⟨"a1", "Finance Tracker", "Finance", "Track your money"⟩
        ["finance"] "finance"
      = min (specPlainRawScore ⟨"a1", "Finance Tracker", "Finance", "Track your money"⟩
          ["finance"] "finance" / 10) 1
    ∧ 1/10 < (⟨"a1", "Finance Tracker", "Track your money", "Finance", 1,
        RAGSearch.ResultKind.application⟩ : RAGSearch.AISearchResult).relevanceScore := by
  have h := C8_plain_search_algorithm [⟨"a1", "Finance Tracker", "Finance", "Track your money"⟩]
    "finance" 2 ⟨"a1", "Finance Tracker", "Finance", "Track your money"⟩ ["finance"] "finance"
    ⟨"a1", "Finance Tracker", "Track your money", "Finance", 1, RAGSearch.ResultKind.application⟩
  exact ⟨h.1, h.2.1 (by decide)⟩

/-- Counterexample to claim C9: the query "payment" should map to the
Finance category per the claim, but the local intent classifier only tests
finance/money for Finance, so it returns no category and searchType
`general`. -/
theorem C9_counterexample :
    (MockAI.analyzeIntent "payment").category = none
    ∧ (MockAI.analyzeIntent "payment").searchType = SearchType.general := by
  refine ⟨?_, ?_⟩ <;> decide

/-- Claim C9 as amended: `MockAIService.analyzeIntent` lower-cases the
query and tests the ordered category patterns (finance/money → Finance;
security/privacy → Security; productivity/work → Productivity;
entertainment/music/game → Entertainment) with first match winning and
searchType `category`; with no category match, an action verb among the
keywords (find/show/get/need) gives searchType `feature`, else `general`;
keywords are exactly the query tokens longer than 2 characters; the
operation always returns a value (it is a total function). -/
theorem C9_amended_analyzeIntent_matches_table (query : String) :
    MockAI.analyzeIntent query = specAnalyzeIntent query := by
  dsimp only [MockAI.analyzeIntent, specAnalyzeIntent, specCategoryPatterns, specActionVerbs]
  simp only [List.find?, List.any_cons, List.any_nil, Bool.or_false, Bool.or_assoc]
  by_cases h1 : (strIncludes (strToLower query) "finance"
      || strIncludes (strToLower query) "money") = true
  · simp [h1]
  · by_cases h2 : (strIncludes (strToLower query) "security"
        || strIncludes (strToLower query) "privacy") = true
    · simp [h1, h2]
    · by_cases h3 : (strIncludes (strToLower query) "productivity"
          || strIncludes (strToLower query) "work") = true
      · simp [h1, h2, h3]
      · by_cases h4 : (strIncludes (strToLower query) "entertainment"
            || (strIncludes (strToLower query) "music"
              || strIncludes (strToLower query) "game")) = true
        · simp [h1, h2, h3, h4, Bool.or_assoc]
        · cases hB : ((splitOnSpace (strToLower query)).filter
              (fun w => decide (w.length > 2))).any
              (fun w => (["find", "show", "get", "need"] : List String).contains w) <;>
            simp [h1, h2, h3, h4, hB, Bool.or_assoc]

/-- Claim C10: for an empty (or whitespace-only) query with AI mode
requested, `searchWithAI` returns an empty result list together with a
welcome response of confidence 1.0 and exactly 4 suggested queries - on the
generative provider path (whatever the backend call does) and on the local
provider path alike. -/
theorem C10_empty_query_welcome (backend : RAGSearch.GeminiBackend)
    (shuffle : List String → List String) (st : RAGSearch.RAGState)
    (query : String) (limit : Nat) (hq : strTrim query = "") :
    (RAGSearch.searchWithAI backend shuffle st query limit true).response.results = []
    ∧ ∃ w, (RAGSearch.searchWithAI backend shuffle st query limit true).response.aiResponse
          = some w
        ∧ w.confidence = 1 ∧ w.suggestedQueries.length = 4 := by
  have hq0 : ((strTrim query).length == 0) = true := by rw [hq]; rfl
  dsimp only [RAGSearch.searchWithAI]
  rw [if_pos hq0]
  by_cases hg : st.useGemini = true
  · rw [if_pos rfl, if_pos hg]
    refine ⟨rfl, GeminiAI.generateWelcomeResponse backend.welcomeText st.csvData, rfl, ?_, ?_⟩
    · dsimp only [GeminiAI.generateWelcomeResponse]
      cases backend.welcomeText with
      | ok text => rfl
      | error e => rfl
    · dsimp only [GeminiAI.generateWelcomeResponse]
      cases backend.welcomeText with
      | ok text => rfl
      | error e => rfl
  · rw [if_pos rfl, if_neg hg]
    exact ⟨rfl, MockAI.generateWelcomeResponse st.csvData, rfl, rfl, rfl⟩

/-- Witness for C10: the empty query against a degraded-state service and a
failing backend still yields the welcome response shape. -/
theorem C10_empty_query_welcome_witness :
    (RAGSearch.searchWithAI
        ⟨Except.error (JSError.error "fetch failed"), Except.error (JSError.error "fetch failed"),
          Except.error (JSError.error "fetch failed")⟩
        id ⟨[], true⟩ "" 10 true).response.results = []
    ∧ ∃ w, (RAGSearch.searchWithAI
        ⟨Except.error (JSError.error "fetch failed"), Except.error (JSError.error "fetch failed"),
          Except.error (JSError.error "fetch failed")⟩
        id ⟨[], true⟩ "" 10 true).response.aiResponse = some w
        ∧ w.confidence = 1 ∧ w.suggestedQueries.length = 4 :=
  C10_empty_query_welcome
    ⟨Except.error (JSError.error "fetch failed"), Except.error (JSError.error "fetch failed"),
      Except.error (JSError.error "fetch failed")⟩
    id ⟨[], true⟩ "" 10 rfl
